import Mathlib

/-!
Shallow embedding of the weather-bot repository: the JSON value space the
provider client decodes, the persistent history store (`data_storage.py`),
and the three coordinator handlers (`app_coordinator.py`).  Python runtime
behaviour relevant to the handlers (dict `.get`, subscription errors,
`str.capitalize`, `str.split` with `maxsplit=1`, `join`, f-string rendering)
is modelled explicitly; handlers that can raise return an `HResult` that
carries the exception and the store state at the raise point.
-/

/-- JSON-like values as decoded by `response.json()`.  Integral numbers are
`jint`; non-integral numbers carry their decimal representation as written,
since the handlers only ever render them back into reply text. -/
inductive JVal where
  | jnull : JVal
  | jint : Int → JVal
  | jnum : String → JVal
  | jstr : String → JVal
  | jarr : List JVal → JVal
  | jobj : List (String × JVal) → JVal

/-- A decoded JSON object: its field list in document order. -/
abbrev JObj := List (String × JVal)

/-- Python exceptions the embedded handlers can raise. -/
inductive PyErr where
  | keyError : PyErr
  | indexError : PyErr
  | typeError : PyErr
  | attributeError : PyErr
  | permissionError : PyErr
  | jsonDecodeError : PyErr
deriving DecidableEq, Repr

/-- Python `d.get(k)` on a dict known to be a dict: `some` value or `none`. -/
def dict_get (fs : JObj) (k : String) : Option JVal :=
  match fs with
  | [] => none
  | p :: rest => if p.1 == k then some p.2 else dict_get rest k

/-- Python `d.get(k, dflt)` on a dict known to be a dict. -/
def dict_getD (fs : JObj) (k : String) (dflt : JVal) : JVal :=
  match dict_get fs k with
  | some v => v
  | none => dflt

/-- Python `v.get(k, dflt)` on an arbitrary value: `AttributeError` when `v`
is not a dict. -/
def py_get (v : JVal) (k : String) (dflt : JVal) : Except PyErr JVal :=
  match v with
  | .jobj fs => .ok (dict_getD fs k dflt)
  | _ => .error .attributeError

/-- Python `d[k]` on a dict known to be a dict: `KeyError` when absent. -/
def obj_subscr (fs : JObj) (k : String) : Except PyErr JVal :=
  match dict_get fs k with
  | some v => .ok v
  | none => .error .keyError

/-- Python `v[k]` with a string key on an arbitrary value. -/
def jSubscr (v : JVal) (k : String) : Except PyErr JVal :=
  match v with
  | .jobj fs => obj_subscr fs k
  | _ => .error .typeError

/-- Python `v[i]` with a non-negative integer index on an arbitrary value:
indexing a list or a string (a string yields a one-character string),
`IndexError` out of range, `TypeError` on non-indexable values. -/
def jIndex (v : JVal) (i : Nat) : Except PyErr JVal :=
  match v with
  | .jarr xs =>
      match xs.get? i with
      | some x => .ok x
      | none => .error .indexError
  | .jstr s =>
      match s.data.get? i with
      | some c => .ok (.jstr (String.mk [c]))
      | none => .error .indexError
  | _ => .error .typeError

/-- Python `x == n` for an `x` fetched by `dict.get`, compared against an int
literal: within the embedded value space only an integral JSON number equal
to `n` compares true; `None`, strings, lists and objects compare false. -/
def jEqInt (o : Option JVal) (n : Int) : Bool :=
  match o with
  | some (.jint m) => m == n
  | _ => false

/-- Python `x == s` for an `x` fetched by `dict.get`, compared against a
string literal: only an equal string compares true. -/
def jEqStr (o : Option JVal) (s : String) : Bool :=
  match o with
  | some (.jstr t) => t == s
  | _ => false

mutual

/-- Python `repr(v)` for decoded JSON values (ASCII fragment; enough for the
f-string rendering the handlers perform). -/
def pyRepr : JVal → String
  | .jnull => "None"
  | .jint n => toString n
  | .jnum r => r
  | .jstr s => "\x27" ++ s ++ "\x27"
  | .jarr xs => "[" ++ pyReprListSep xs ++ "]"
  | .jobj fs => "\x7b" ++ pyReprFieldsSep fs ++ "\x7d"

/-- Comma-separated `repr` of list elements. -/
def pyReprListSep : List JVal → String
  | [] => ""
  | [x] => pyRepr x
  | x :: y :: rest => pyRepr x ++ ", " ++ pyReprListSep (y :: rest)

/-- Comma-separated `repr` of dict items. -/
def pyReprFieldsSep : List (String × JVal) → String
  | [] => ""
  | [p] => "\x27" ++ p.1 ++ "\x27: " ++ pyRepr p.2
  | p :: q :: rest => "\x27" ++ p.1 ++ "\x27: " ++ pyRepr p.2 ++ ", " ++ pyReprFieldsSep (q :: rest)

end

/-- Python `str(v)` as an f-string renders it: a string renders verbatim,
everything else by its `repr`. -/
def pyStr (v : JVal) : String :=
  match v with
  | .jstr s => s
  | v => pyRepr v

/-- Python `s.capitalize()` (ASCII fragment): upper-case the first character
and lower-case all the remaining ones. -/
def pyCapitalize (s : String) : String :=
  match s.data with
  | [] => ""
  | c :: rest => String.mk (c.toUpper :: rest.map Char.toLower)

/-- Python `v.capitalize()` on an arbitrary value: `AttributeError` when `v`
is not a string. -/
def pyCapitalizeVal (v : JVal) : Except PyErr String :=
  match v with
  | .jstr s => .ok (pyCapitalize s)
  | _ => .error .attributeError

/-- Python dict keys of the persisted store: in memory the coordinator uses
integer user ids, after a JSON round trip they come back as strings. -/
inductive PyKey where
  | intKey : Int → PyKey
  | strKey : String → PyKey
deriving DecidableEq, Repr

/-- One record of the per-user list: the city/weather dict built by
`save_weather_request`. -/
structure HistoryEntry where
  city : String
  weather : JObj

/-- The in-memory store `self.data`: an insertion-ordered dict from key to
list of entries, modelled as an association list. -/
abbrev Store := List (PyKey × List HistoryEntry)

/-- Dict lookup in the store. -/
def store_lookup (store : Store) (k : PyKey) : Option (List HistoryEntry) :=
  match store with
  | [] => none
  | p :: rest => if p.1 == k then some p.2 else store_lookup rest k

/-- Embeds `DataStorage.save_weather_request`: create the user's list if absent,
then append the city/weather entry in place (`_save_data` then rewrites
the backing file; persistence is modelled separately by `dump_store`). -/
def save_weather_request (store : Store) (user_id : Int) (city : String) (weather : JObj) : Store :=
  let k : PyKey := .intKey user_id
  if (store_lookup store k).isSome then
    store.map (fun p => if p.1 == k then (p.1, p.2 ++ [⟨city, weather⟩]) else p)
  else
    store ++ [(k, [⟨city, weather⟩])]

/-- Embeds `DataStorage.get_user_history`: `self.data.get(user_id, [])` with the
integer user id as the key. -/
def get_user_history (store : Store) (user_id : Int) : List HistoryEntry :=
  match store_lookup store (.intKey user_id) with
  | some l => l
  | none => []

/-- JSON object keys are strings: `json.dump` writes an integer dict key as
its decimal string. -/
def stringify_key : PyKey → PyKey
  | .intKey n => .strKey (toString n)
  | .strKey s => .strKey s

/-- The store as `_save_data` writes it and `_load_data` reads it back: the
same mapping with every key string-encoded (entry values survive the JSON
round trip unchanged). -/
def dump_store (store : Store) : Store :=
  store.map (fun p => (stringify_key p.1, p.2))

/-- Outcome of attempting to open and decode the backing file at startup. -/
inductive FileReadResult where
  | missing : FileReadResult
  | unreadable : FileReadResult
  | invalidJson : FileReadResult
  | good : Store → FileReadResult

/-- Embeds `DataStorage._load_data`: a `try` around open and `json.load` whose only
handler is `except FileNotFoundError`.  Only a missing file is caught; a file
that exists but cannot be opened raises `PermissionError`, and one that holds
malformed JSON raises `json.JSONDecodeError`. -/
def load_data : FileReadResult → Except PyErr Store
  | .missing => .ok []
  | .unreadable => .error .permissionError
  | .invalidJson => .error .jsonDecodeError
  | .good s => .ok s

/-- Python `text.split` with `maxsplit=1`: drop leading whitespace, take the
first whitespace-free token, then the remainder with its leading whitespace
stripped; a whitespace-only remainder is dropped. -/
def pySplitMax1 (s : String) : List String :=
  let l := s.data.dropWhile (fun c => c.isWhitespace)
  if l.isEmpty then []
  else
    let tok := l.takeWhile (fun c => !c.isWhitespace)
    let rest := (l.dropWhile (fun c => !c.isWhitespace)).dropWhile (fun c => c.isWhitespace)
    if rest.isEmpty then [String.mk tok]
    else [String.mk tok, String.mk rest]

/-- Python `sep.join(xs)`. -/
def pyJoin (sep : String) : List String → String
  | [] => ""
  | x :: rest => rest.foldl (fun acc s => acc ++ sep ++ s) x

/-- Outcome of one handler invocation: the single reply it sent, or the
exception it raised, together with the store state when it finished. -/
inductive HResult where
  | replied : String → Store → HResult
  | raised : PyErr → Store → HResult

/-- Store component of a handler outcome. -/
def storeOf : HResult → Store
  | .replied _ s => s
  | .raised _ s => s

/-- Fixed failure reply of the current-weather handler. -/
def weatherFail : String := "Failed to get weather data. Please check the city name."

/-- Fixed failure reply of the forecast handler. -/
def forecastFail : String := "Failed to get forecast data. Please check the city name."

/-- Usage hint of the forecast handler. -/
def usageHint : String := "Please provide a city name, e.g., /forecast Moscow"

/-- Empty-history reply of the history handler. -/
def historyEmpty : String := "Your history is empty!"

/-- The extraction of the first weather description performed by
`handle_message` on a success payload: three direct subscripts. -/
def extract_description (w : JObj) : Except PyErr JVal := do
  let l ← obj_subscr w ("weather")
  let f ← jIndex l 0
  jSubscr f ("description")

/-- The temperature extraction performed by `handle_message`: two direct
subscripts. -/
def extract_temperature (w : JObj) : Except PyErr JVal := do
  let m ← obj_subscr w ("main")
  jSubscr m ("temp")

/-- Success reply of `handle_message`, as its f-string builds it from the
message text, the capitalized description and the rendered temperature. -/
def weather_reply (city ds temp : String) : String :=
  "Weather in " ++ city ++ ":\n" ++ ds ++ "\nTemperature: " ++ temp ++ "°C\n"

/-- Embeds `WeatherBotCoordinator.handle_message` on message text `text` from user
`user_id`, where `w` is the decoded provider response for that text.  Order
follows the source: status check, description extraction, temperature
extraction, history save, then reply formatting (so the `capitalize` call
runs after the save and can still raise). -/
def handle_message (text : String) (user_id : Int) (w : JObj) (store : Store) : HResult :=
  if !(jEqInt (dict_get w ("cod")) 200) then
    .replied weatherFail store
  else
    match extract_description w with
    | .error e => .raised e store
    | .ok desc =>
      match extract_temperature w with
      | .error e => .raised e store
      | .ok temp =>
        let store' := save_weather_request store user_id text w
        match pyCapitalizeVal desc with
        | .error e => .raised e store'
        | .ok ds => .replied (weather_reply text ds (pyStr temp)) store'

/-- One line of `handle_history`: description via a `get` chain whose first
default is a one-element list holding an empty dict, temperature via a `get`
chain whose first default is an empty dict. -/
def render_history_line (e : HistoryEntry) : Except PyErr String := do
  let first ← jIndex (dict_getD e.weather ("weather") (.jarr [.jobj []])) 0
  let desc ← py_get first ("description") (.jstr ("No description"))
  let temp ← py_get (dict_getD e.weather ("main") (.jobj [])) ("temp") (.jstr ("No temperature data"))
  pure ("City: " ++ e.city ++ ", Description: " ++ pyStr desc ++ ", Temp: " ++ pyStr temp ++ "°C")

/-- The history handler's rendering loop: lines in entry order, stopping at
the first exception. -/
def render_history_lines : List HistoryEntry → Except PyErr (List String)
  | [] => .ok []
  | e :: rest =>
    match render_history_line e with
    | .error err => .error err
    | .ok s =>
      match render_history_lines rest with
      | .error err => .error err
      | .ok ls => .ok (s :: ls)

/-- Embeds `WeatherBotCoordinator.handle_history` for user `user_id`. -/
def handle_history (user_id : Int) (store : Store) : HResult :=
  let history := get_user_history store user_id
  if history.isEmpty then
    .replied historyEmpty store
  else
    match render_history_lines history with
    | .error e => .raised e store
    | .ok lines => .replied (pyJoin ("\n") lines) store

/-- Header line of the forecast reply. -/
def forecast_header (city : String) : String := "Weather forecast for " ++ city ++ ":"

/-- Python slice `[:5]`: slicing a list or a string keeps its first five
items (iterating a string yields one-character strings); anything else raises
`TypeError`. -/
def py_slice5 : JVal → Except PyErr (List JVal)
  | .jarr xs => .ok (xs.take 5)
  | .jstr s => .ok ((s.data.take 5).map (fun c => .jstr (String.mk [c])))
  | _ => .error .typeError

/-- One forecast point line: timestamp via `get` with default, then the
direct subscripts for description and temperature, then the f-string with
the `capitalize` call. -/
def render_forecast_point (p : JVal) : Except PyErr String := do
  let dt ← py_get p ("dt_txt") (.jstr ("N/A"))
  let wl ← jSubscr p ("weather")
  let w0 ← jIndex wl 0
  let desc ← jSubscr w0 ("description")
  let mn ← jSubscr p ("main")
  let temp ← jSubscr mn ("temp")
  let ds ← pyCapitalizeVal desc
  pure (pyStr dt ++ ": " ++ ds ++ ", Temp: " ++ pyStr temp ++ "°C")

/-- The forecast handler's rendering loop over the sliced points. -/
def render_forecast_points : List JVal → Except PyErr (List String)
  | [] => .ok []
  | p :: rest =>
    match render_forecast_point p with
    | .error err => .error err
    | .ok s =>
      match render_forecast_points rest with
      | .error err => .error err
      | .ok ls => .ok (s :: ls)

/-- The body of `handle_forecast` after the city has been parsed, where `fd`
is the decoded forecast response for that city. -/
def handle_forecast_city (city : String) (fd : JObj) (store : Store) : HResult :=
  if !(jEqStr (dict_get fd ("cod")) ("200")) then
    .replied forecastFail store
  else
    match py_slice5 (dict_getD fd ("list") (.jarr [])) with
    | .error e => .raised e store
    | .ok pts =>
      match render_forecast_points pts with
      | .error e => .raised e store
      | .ok lines => .replied (pyJoin ("\n") (forecast_header city :: lines)) store

/-- Embeds `WeatherBotCoordinator.handle_forecast` on the raw command text: split
with `maxsplit=1`, reply with the usage hint when no argument follows the
command word, otherwise fetch the forecast for the remainder through the
provider `api` and render it. -/
def handle_forecast (text : String) (api : String → JObj) (store : Store) : HResult :=
  match pySplitMax1 text with
  | _ :: city :: _ => handle_forecast_city city (api city) store
  | _ => .replied usageHint store

/-- A sequence of `save_weather_request` calls applied in order, used to
state trace-level properties of the store. -/
def apply_saves (saves : List (Int × String × JObj)) (store : Store) : Store :=
  saves.foldl (fun st s => save_weather_request st s.1 s.2.1 s.2.2) store

/-- Concrete payload of the Paris scenario from the spec. -/
def parisW : JObj :=
  [(("cod"), .jint 200),
   (("weather"), .jarr [.jobj [(("description"), .jstr ("clear sky"))]]),
   (("main"), .jobj [(("temp"), .jnum ("18.5"))])]

/-- Store holding the single Paris entry for user 1. -/
def parisStore : Store := [(.intKey 1, [⟨"Paris", parisW⟩])]

/-- A success-status payload lacking the weather field entirely. -/
def c1BadPayload : JObj := [(("cod"), .jint 200)]

/-- Store whose single entry has a present-but-empty weather list. -/
def c3Store : Store :=
  [(.intKey 7, [⟨"X", [(("cod"), .jint 200), (("weather"), .jarr [])]⟩])]

/-- One well-formed forecast point used by the forecast witnesses. -/
def c4Pt (n : Int) : JVal :=
  .jobj [(("dt_txt"), .jstr (toString n)),
         (("weather"), .jarr [.jobj [(("description"), .jstr ("rain"))]]),
         (("main"), .jobj [(("temp"), .jint 3)])]

/-- Seven forecast points, more than the rendering limit. -/
def c4Pts : List JVal := [c4Pt 0, c4Pt 1, c4Pt 2, c4Pt 3, c4Pt 4, c4Pt 5, c4Pt 6]

/-- A forecast response carrying seven points. -/
def c4Fd : JObj := [(("cod"), .jstr ("200")), (("list"), .jarr c4Pts)]

/-- The five lines the forecast handler renders from `c4Fd`. -/
def c4Lines : List String :=
  [("0: Rain, Temp: 3°C"), ("1: Rain, Temp: 3°C"), ("2: Rain, Temp: 3°C"),
   ("3: Rain, Temp: 3°C"), ("4: Rain, Temp: 3°C")]

/-- Paris payload with a mixed-case description. -/
def c9SkyW : JObj :=
  [(("cod"), .jint 200),
   (("weather"), .jarr [.jobj [(("description"), .jstr ("clear SKY"))]]),
   (("main"), .jobj [(("temp"), .jnum ("18.5"))])]

lemma beq_key_eq {a b : PyKey} (h : (a == b) = true) : a = b := by
  simpa using h

lemma store_lookup_append (s1 s2 : Store) (j : PyKey) :
    store_lookup (s1 ++ s2) j
      = match store_lookup s1 j with
        | some v => some v
        | none => store_lookup s2 j := by
  induction s1 with
  | nil => simp [store_lookup]
  | cons p rest ih =>
    by_cases hp : (p.1 == j) = true
    · simp only [List.cons_append, store_lookup, hp, if_true]
    · simp only [Bool.not_eq_true] at hp
      simp only [List.cons_append, store_lookup, hp, Bool.false_eq_true, if_false]
      exact ih

lemma store_lookup_map_upd (k : PyKey) (e : HistoryEntry) (store : Store) (j : PyKey) :
    store_lookup (store.map (fun p => if (p.1 == k) = true then (p.1, p.2 ++ [e]) else p)) j
      = match store_lookup store j with
        | some l => some (if (j == k) = true then l ++ [e] else l)
        | none => none := by
  induction store with
  | nil => simp [store_lookup]
  | cons p rest ih =>
    by_cases hp : (p.1 == j) = true
    · have hpj : p.1 = j := beq_key_eq hp
      by_cases hk : (p.1 == k) = true
      · have hjk : (j == k) = true := by rw [← hpj]; exact hk
        simp only [List.map_cons, hk, if_true, store_lookup, hp, hjk]
      · simp only [Bool.not_eq_true] at hk
        have hjk : (j == k) = false := by rw [← hpj]; exact hk
        simp only [List.map_cons, hk, Bool.false_eq_true, if_false, store_lookup, hp, if_true,
          hjk]
    · simp only [Bool.not_eq_true] at hp
      by_cases hk : (p.1 == k) = true
      · simp only [List.map_cons, hk, if_true, store_lookup, hp, Bool.false_eq_true, if_false, ih]
      · simp only [Bool.not_eq_true] at hk
        simp only [List.map_cons, hk, Bool.false_eq_true, if_false, store_lookup, hp, ih]

lemma save_lookup_present (store : Store) (u : Int) (c : String) (w : JObj) (j : PyKey)
    (l0 : List HistoryEntry) (h : store_lookup store (.intKey u) = some l0) :
    store_lookup (save_weather_request store u c w) j
      = match store_lookup store j with
        | some l => some (if (j == PyKey.intKey u) = true then l ++ [⟨c, w⟩] else l)
        | none => none := by
  simp only [save_weather_request, h, Option.isSome_some, if_true]
  exact store_lookup_map_upd _ _ _ _

lemma save_lookup_absent (store : Store) (u : Int) (c : String) (w : JObj) (j : PyKey)
    (h : store_lookup store (.intKey u) = none) :
    store_lookup (save_weather_request store u c w) j
      = match store_lookup store j with
        | some v => some v
        | none => if (PyKey.intKey u == j) = true then some [⟨c, w⟩] else none := by
  simp only [save_weather_request, h, Option.isSome_none, Bool.false_eq_true, if_false]
  rw [store_lookup_append]
  cases hj : store_lookup store j with
  | some v => simp
  | none => simp [store_lookup]

lemma save_self (store : Store) (u : Int) (c : String) (w : JObj) :
    get_user_history (save_weather_request store u c w) u
      = get_user_history store u ++ [⟨c, w⟩] := by
  unfold get_user_history
  cases hl : store_lookup store (.intKey u) with
  | some l =>
    rw [save_lookup_present store u c w _ l hl, hl]
    simp
  | none =>
    rw [save_lookup_absent store u c w _ hl, hl]
    simp

lemma save_other (store : Store) (u : Int) (c : String) (w : JObj) (v : Int) (hvu : v ≠ u) :
    get_user_history (save_weather_request store u c w) v = get_user_history store v := by
  unfold get_user_history
  have h1 : (PyKey.intKey v == PyKey.intKey u) = false := by simp [hvu]
  have h2 : (PyKey.intKey u == PyKey.intKey v) = false := by
    simp only [beq_eq_false_iff_ne, ne_eq, PyKey.intKey.injEq]
    intro he
    exact absurd he.symm hvu
  cases hu : store_lookup store (.intKey u) with
  | some l0 =>
    rw [save_lookup_present store u c w _ l0 hu]
    cases hv : store_lookup store (.intKey v) with
    | some l => simp [h1]
    | none => simp
  | none =>
    rw [save_lookup_absent store u c w _ hu]
    cases hv : store_lookup store (.intKey v) with
    | some l => simp
    | none => simp [h2]

lemma append_head (s t : String) (c : Char) (h : s.data.head? = some c) :
    (s ++ t).data.head? = some c := by
  have hd : (s ++ t).data = s.data ++ t.data := rfl
  rw [hd]
  cases hs : s.data with
  | nil => rw [hs] at h; cases h
  | cons a l =>
    rw [hs] at h
    simp at h
    simp [h]

lemma foldl_append_head (sep : String) :
    ∀ (l : List String) (acc : String) (c : Char), acc.data.head? = some c →
      (List.foldl (fun a s => a ++ sep ++ s) acc l).data.head? = some c := by
  intro l
  induction l with
  | nil => intro acc c h; exact h
  | cons s rest ih =>
    intro acc c h
    exact ih (acc ++ sep ++ s) c (append_head _ _ _ (append_head _ _ _ h))

lemma weather_reply_head (city ds temp : String) :
    (weather_reply city ds temp).data.head? = some ('W') := by
  unfold weather_reply
  exact append_head _ _ _ (append_head _ _ _ (append_head _ _ _ (append_head _ _ _
    (append_head _ _ _ (append_head _ _ _ rfl)))))

lemma weather_reply_ne_fail (city ds temp : String) :
    weather_reply city ds temp ≠ weatherFail := by
  intro h
  have h1 := weather_reply_head city ds temp
  rw [h] at h1
  exact absurd h1 (by decide)

lemma forecast_reply_head (city : String) (lines : List String) :
    (pyJoin ("\n") (forecast_header city :: lines)).data.head? = some ('W') := by
  unfold pyJoin
  exact foldl_append_head _ lines (forecast_header city) _
    (append_head _ _ _ (append_head _ _ _ rfl))

lemma forecast_reply_ne_fail (city : String) (lines : List String) :
    pyJoin ("\n") (forecast_header city :: lines) ≠ forecastFail := by
  intro h
  have h1 := forecast_reply_head city lines
  rw [h] at h1
  exact absurd h1 (by decide)

lemma render_forecast_points_length :
    ∀ (l : List JVal) (r : List String), render_forecast_points l = .ok r → r.length = l.length := by
  intro l
  induction l with
  | nil =>
    intro r h
    simp only [render_forecast_points] at h
    cases h
    rfl
  | cons p rest ih =>
    intro r h
    simp only [render_forecast_points] at h
    cases hp : render_forecast_point p with
    | error e => rw [hp] at h; cases h
    | ok s =>
      rw [hp] at h
      cases hr : render_forecast_points rest with
      | error e => rw [hr] at h; cases h
      | ok ls =>
        rw [hr] at h
        cases h
        simp [ih ls hr]

lemma handle_history_store (uid : Int) (store : Store) :
    storeOf (handle_history uid store) = store := by
  simp only [handle_history]
  by_cases h : (get_user_history store uid).isEmpty = true
  · simp [h, storeOf]
  · simp only [Bool.not_eq_true] at h
    simp only [h, Bool.false_eq_true, if_false]
    cases hr : render_history_lines (get_user_history store uid) with
    | error e => simp [storeOf]
    | ok lines => simp [storeOf]

lemma handle_forecast_city_store (city : String) (fd : JObj) (store : Store) :
    storeOf (handle_forecast_city city fd store) = store := by
  simp only [handle_forecast_city]
  by_cases h : jEqStr (dict_get fd ("cod")) ("200") = true
  · simp only [h, Bool.not_true, Bool.false_eq_true, if_false]
    cases hs : py_slice5 (dict_getD fd ("list") (.jarr [])) with
    | error e => simp [storeOf]
    | ok pts =>
      cases hr : render_forecast_points pts with
      | error e => simp [hr, storeOf]
      | ok lines => simp [hr, storeOf]
  · simp only [Bool.not_eq_true] at h
    simp [h, storeOf]

lemma handle_forecast_store (text : String) (api : String → JObj) (store : Store) :
    storeOf (handle_forecast text api store) = store := by
  simp only [handle_forecast]
  cases hp : pySplitMax1 text with
  | nil => simp [storeOf]
  | cons a t =>
    cases t with
    | nil => simp [storeOf]
    | cons b t2 => simp [handle_forecast_city_store]




/-- C1 (amended): per-operation history effects. -/
theorem c1_message_append :
    (∀ (text : String) (uid : Int) (w : JObj) (store : Store),
       jEqInt (dict_get w ("cod")) 200 = false →
         handle_message text uid w store = .replied weatherFail store)
  ∧ (∀ (text : String) (uid : Int) (w : JObj) (store : Store) (d t : JVal),
       jEqInt (dict_get w ("cod")) 200 = true →
       extract_description w = .ok d →
       extract_temperature w = .ok t →
         storeOf (handle_message text uid w store) = save_weather_request store uid text w
         ∧ get_user_history (storeOf (handle_message text uid w store)) uid
             = get_user_history store uid ++ [⟨text, w⟩])
  ∧ (∀ (text : String) (uid : Int) (w : JObj) (store : Store) (e : PyErr),
       jEqInt (dict_get w ("cod")) 200 = true →
       extract_description w = .error e →
         handle_message text uid w store = .raised e store)
  ∧ (∀ (text : String) (uid : Int) (w : JObj) (store : Store) (d : JVal) (e : PyErr),
       jEqInt (dict_get w ("cod")) 200 = true →
       extract_description w = .ok d →
       extract_temperature w = .error e →
         handle_message text uid w store = .raised e store)
  ∧ (∀ (uid : Int) (store : Store), storeOf (handle_history uid store) = store)
  ∧ (∀ (text : String) (api : String → JObj) (store : Store),
       storeOf (handle_forecast text api store) = store) := by
  refine ⟨?_, ?_, ?_, ?_, handle_history_store, handle_forecast_store⟩
  · intro text uid w store hc
    simp [handle_message, hc]
  · intro text uid w store d t hc hd ht
    constructor
    · cases hcap : pyCapitalizeVal d <;> simp [handle_message, hc, hd, ht, hcap, storeOf]
    · cases hcap : pyCapitalizeVal d <;>
        simp [handle_message, hc, hd, ht, hcap, storeOf, save_self]
  · intro text uid w store e hc hd
    simp [handle_message, hc, hd]
  · intro text uid w store d e hc hd ht
    simp [handle_message, hc, hd, ht]

theorem c1_message_append_witness :
    storeOf (handle_message ("Paris") 1 parisW []) = save_weather_request [] 1 ("Paris") parisW
    ∧ get_user_history (storeOf (handle_message ("Paris") 1 parisW [])) 1
        = get_user_history [] 1 ++ [⟨"Paris", parisW⟩] :=
  c1_message_append.2.1 ("Paris") 1 parisW [] (.jstr ("clear sky")) (.jnum ("18.5")) rfl rfl rfl

/-- C1 counterexample: a success-status payload with no weather field makes
`handle_message` raise `KeyError` and append nothing. -/
theorem c1_counterexample :
    dict_get c1BadPayload ("cod") = some (.jint 200)
    ∧ handle_message ("Paris") 1 c1BadPayload [] = .raised .keyError []
    ∧ storeOf (handle_message ("Paris") 1 c1BadPayload []) = [] :=
  ⟨rfl, rfl, rfl⟩

/-- C2 evaluated at the failing input: saving user 1's entry, dumping the
store to JSON and reading it back turns the key into the string form, after
which the integer lookup returns the empty history. -/
theorem c2_roundtrip_eval :
    get_user_history parisStore 1 = [⟨"Paris", parisW⟩]
    ∧ dump_store parisStore = [(.strKey ("1"), [⟨"Paris", parisW⟩])]
    ∧ get_user_history (dump_store parisStore) 1 = [] :=
  ⟨rfl, rfl, rfl⟩


/-- C3 counterexample: a stored payload whose weather key maps to an empty
list makes the history handler raise `IndexError`. -/
theorem c3_counterexample :
    handle_history 7 c3Store = .raised .indexError c3Store := rfl

/-- C3 (amended): history rendering substitutes placeholders for absent
keys, but the current-weather and forecast renderers raise on them. -/
theorem c3_placeholders :
    (∀ (city : String) (w : JObj),
       dict_get w ("weather") = none → dict_get w ("main") = none →
         render_history_line ⟨city, w⟩
           = .ok ("City: " ++ city ++ ", Description: No description, Temp: No temperature data°C"))
  ∧ (∀ (text : String) (uid : Int) (w : JObj) (store : Store),
       jEqInt (dict_get w ("cod")) 200 = true →
       dict_get w ("weather") = none →
         handle_message text uid w store = .raised .keyError store)
  ∧ (∀ (p : JObj),
       dict_get p ("weather") = none →
         render_forecast_point (.jobj p) = .error .keyError) := by
  refine ⟨?_, ?_, ?_⟩
  · intro city w h1 h2
    have hr : render_history_line ⟨city, w⟩
        = .ok ("City: " ++ city ++ ", Description: " ++ ("No description") ++ ", Temp: "
            ++ ("No temperature data") ++ "°C") := by
      simp only [render_history_line, dict_getD, h1, h2]
      rfl
    rw [hr]
    congr 1
    simp only [String.append_assoc]
    congr 2
  · intro text uid w store hc h2
    have hd : extract_description w = .error .keyError := by
      simp only [extract_description, obj_subscr, h2]
      rfl
    simp [handle_message, hc, hd]
  · intro p h
    simp only [render_forecast_point, py_get, jSubscr, obj_subscr, h]
    rfl

theorem c3_placeholders_witness :
    render_history_line ⟨"Y", []⟩
      = .ok ("City: " ++ ("Y") ++ ", Description: No description, Temp: No temperature data°C") :=
  c3_placeholders.1 ("Y") [] rfl rfl

/-- C4: forecast rendering keeps the header plus at most the first five
points, in order. -/
theorem c4_forecast_limit :
    ∀ (city : String) (fd : JObj) (store : Store) (xs : List JVal) (lines : List String),
      jEqStr (dict_get fd ("cod")) ("200") = true →
      dict_getD fd ("list") (.jarr []) = .jarr xs →
      render_forecast_points (xs.take 5) = .ok lines →
        handle_forecast_city city fd store
          = .replied (pyJoin ("\n") (forecast_header city :: lines)) store
        ∧ lines.length = min 5 xs.length
        ∧ (xs.length ≤ 5 → render_forecast_points xs = .ok lines) := by
  intro city fd store xs lines hc hl hr
  refine ⟨?_, ?_, ?_⟩
  · simp only [handle_forecast_city, hc, Bool.not_true, Bool.false_eq_true, if_false, hl,
      py_slice5, hr]
  · rw [render_forecast_points_length _ _ hr, List.length_take]
  · intro hle
    rw [List.take_of_length_le hle] at hr
    exact hr





theorem c4_forecast_limit_witness :
    handle_forecast_city ("Oslo") c4Fd []
      = .replied (pyJoin ("\n") (forecast_header ("Oslo") :: c4Lines)) []
    ∧ c4Lines.length = min 5 c4Pts.length
    ∧ (c4Pts.length ≤ 5 → render_forecast_points c4Pts = .ok c4Lines) :=
  c4_forecast_limit ("Oslo") c4Fd [] c4Pts c4Lines rfl rfl rfl

/-- C5: a forecast command without an argument replies with the usage hint,
leaves the store unchanged, and never consults the provider. -/
theorem c5_forecast_no_arg :
    ∀ (text : String) (store : Store) (api api2 : String → JObj),
      (pySplitMax1 text).length < 2 →
        handle_forecast text api store = .replied usageHint store
        ∧ handle_forecast text api store = handle_forecast text api2 store := by
  intro text store api api2 h
  cases hp : pySplitMax1 text with
  | nil => simp [handle_forecast, hp]
  | cons a t =>
    cases t with
    | nil => simp [handle_forecast, hp]
    | cons b t2 =>
      rw [hp] at h
      simp at h
      omega

theorem c5_forecast_no_arg_witness :
    handle_forecast ("/forecast") (fun _ => []) [] = .replied usageHint []
    ∧ handle_forecast ("/forecast") (fun _ => []) []
        = handle_forecast ("/forecast") (fun _ => [(("cod"), JVal.jstr ("200"))]) [] :=
  c5_forecast_no_arg ("/forecast") [] _ _ (by decide)

/-- C6: `get_user_history` returns the stored list for a present key, and
the empty list for a user never saved; it is a total function. -/
theorem c6_get_history :
    (∀ (store : Store) (uid : Int) (l : List HistoryEntry),
       store_lookup store (.intKey uid) = some l → get_user_history store uid = l)
  ∧ (∀ (store : Store) (uid : Int),
       store_lookup store (.intKey uid) = none → get_user_history store uid = [])
  ∧ (∀ (saves : List (Int × String × JObj)) (uid : Int),
       (∀ s ∈ saves, s.1 ≠ uid) → get_user_history (apply_saves saves []) uid = []) := by
  refine ⟨?_, ?_, ?_⟩
  · intro store uid l h
    simp [get_user_history, h]
  · intro store uid h
    simp [get_user_history, h]
  · intro saves uid h
    have key : ∀ (ss : List (Int × String × JObj)) (st : Store),
        (∀ s ∈ ss, s.1 ≠ uid) → get_user_history st uid = [] →
          get_user_history (apply_saves ss st) uid = [] := by
      intro ss
      induction ss with
      | nil => intro st _ h0; exact h0
      | cons s rest ih =>
        intro st hs h0
        have h1 : get_user_history (save_weather_request st s.1 s.2.1 s.2.2) uid = [] := by
          rw [save_other st s.1 s.2.1 s.2.2 uid (Ne.symm (hs s (List.mem_cons_self s rest)))]
          exact h0
        exact ih (save_weather_request st s.1 s.2.1 s.2.2)
          (fun x hx => hs x (List.mem_cons_of_mem s hx)) h1
    exact key saves [] h rfl

theorem c6_get_history_witness :
    get_user_history [(.intKey 3, [⟨"A", []⟩])] 3 = [⟨"A", []⟩]
    ∧ get_user_history (apply_saves [(2, ("A"), [])] []) 1 = [] :=
  ⟨c6_get_history.1 [(.intKey 3, [⟨"A", []⟩])] 3 [⟨"A", []⟩] rfl,
   c6_get_history.2.2 [(2, ("A"), [])] 1 (by decide)⟩

/-- C7: the current-weather handler fails exactly when the status is not the
integer 200; the forecast handler fails exactly when it is not the string
form; each endpoint rejects the other endpoint's type. -/
theorem c7_status_codes :
    (∀ (text : String) (uid : Int) (w : JObj) (store : Store),
       handle_message text uid w store = .replied weatherFail store
         ↔ jEqInt (dict_get w ("cod")) 200 = false)
  ∧ (∀ (city : String) (fd : JObj) (store : Store),
       handle_forecast_city city fd store = .replied forecastFail store
         ↔ jEqStr (dict_get fd ("cod")) ("200") = false)
  ∧ jEqInt (some (.jstr ("200"))) 200 = false
  ∧ jEqStr (some (.jint 200)) ("200") = false := by
  refine ⟨?_, ?_, rfl, rfl⟩
  · intro text uid w store
    constructor
    · intro h
      cases hb : jEqInt (dict_get w ("cod")) 200 with
      | false => rfl
      | true =>
        exfalso
        simp only [handle_message, hb, Bool.not_true, Bool.false_eq_true, if_false] at h
        cases hd : extract_description w with
        | error e => simp only [hd] at h; exact HResult.noConfusion h
        | ok d =>
          simp only [hd] at h
          cases ht : extract_temperature w with
          | error e => simp only [ht] at h; exact HResult.noConfusion h
          | ok t =>
            simp only [ht] at h
            cases hcap : pyCapitalizeVal d with
            | error e => simp only [hcap] at h; exact HResult.noConfusion h
            | ok ds =>
              simp only [hcap] at h
              injection h with h1 h2
              exact weather_reply_ne_fail text ds (pyStr t) h1
    · intro hb
      simp [handle_message, hb]
  · intro city fd store
    constructor
    · intro h
      cases hb : jEqStr (dict_get fd ("cod")) ("200") with
      | false => rfl
      | true =>
        exfalso
        simp only [handle_forecast_city, hb, Bool.not_true, Bool.false_eq_true, if_false] at h
        cases hs : py_slice5 (dict_getD fd ("list") (.jarr [])) with
        | error e => simp only [hs] at h; exact HResult.noConfusion h
        | ok pts =>
          simp only [hs] at h
          cases hr : render_forecast_points pts with
          | error e => simp only [hr] at h; exact HResult.noConfusion h
          | ok lines =>
            simp only [hr] at h
            injection h with h1 h2
            exact forecast_reply_ne_fail city lines h1
    · intro hb
      simp [handle_forecast_city, hb]

theorem c7_status_codes_witness :
    handle_message ("Riga") 5 [(("cod"), JVal.jstr ("200"))] [] = .replied weatherFail []
    ∧ handle_forecast_city ("Riga") [(("cod"), JVal.jint 200)] [] = .replied forecastFail [] :=
  ⟨(c7_status_codes.1 ("Riga") 5 [(("cod"), JVal.jstr ("200"))] []).mpr rfl,
   (c7_status_codes.2.1 ("Riga") [(("cod"), JVal.jint 200)] []).mpr rfl⟩

/-- C8 counterexample: a backing file that exists but cannot be read raises
instead of initializing an empty store. -/
theorem c8_counterexample :
    load_data .unreadable = .error .permissionError := rfl

/-- C8 (amended): only a missing backing file yields the empty store; other
unreadable conditions propagate as exceptions. -/
theorem c8_load_missing_only :
    load_data .missing = .ok []
    ∧ load_data .unreadable = .error .permissionError
    ∧ load_data .invalidJson = .error .jsonDecodeError :=
  ⟨rfl, rfl, rfl⟩

/-- C9 (amended): rendered descriptions go through Python capitalize, which
upper-cases the first character and lower-cases the rest; the Paris scenario
holds as specified. -/
theorem c9_capitalize :
    (∀ (text : String) (uid : Int) (w : JObj) (store : Store) (d : String) (t : JVal),
       jEqInt (dict_get w ("cod")) 200 = true →
       extract_description w = .ok (.jstr d) →
       extract_temperature w = .ok t →
         handle_message text uid w store
           = .replied (weather_reply text (pyCapitalize d) (pyStr t))
               (save_weather_request store uid text w))
  ∧ (∀ (dt d : String) (t : JVal),
       render_forecast_point
           (.jobj [(("dt_txt"), .jstr dt),
                   (("weather"), .jarr [.jobj [(("description"), .jstr d)]]),
                   (("main"), .jobj [(("temp"), t)])])
         = .ok (dt ++ ": " ++ pyCapitalize d ++ ", Temp: " ++ pyStr t ++ "°C"))
  ∧ handle_message ("Paris") 1 parisW []
      = .replied ("Weather in Paris:\nClear sky\nTemperature: 18.5°C\n") parisStore
  ∧ pyCapitalize ("clear sky") = ("Clear sky") := by
  refine ⟨?_, ?_, rfl, rfl⟩
  · intro text uid w store d t hc hd ht
    simp [handle_message, hc, hd, ht, pyCapitalizeVal]
  · intro dt d t
    rfl

theorem c9_capitalize_witness :
    handle_message ("Paris") 1 parisW []
      = .replied (weather_reply ("Paris") (pyCapitalize ("clear sky")) (pyStr (.jnum ("18.5"))))
          (save_weather_request [] 1 ("Paris") parisW) :=
  c9_capitalize.1 ("Paris") 1 parisW [] ("clear sky") (.jnum ("18.5")) rfl rfl rfl


/-- C9 counterexample: a mixed-case description is not left unchanged after
its first letter; the upper-case tail is folded to lower case. -/
theorem c9_counterexample :
    handle_message ("Paris") 1 c9SkyW []
      = .replied ("Weather in Paris:\nClear sky\nTemperature: 18.5°C\n")
          [(.intKey 1, [⟨"Paris", c9SkyW⟩])]
    ∧ ("Weather in Paris:\nClear sky\nTemperature: 18.5°C\n")
        ≠ ("Weather in Paris:\nClear SKY\nTemperature: 18.5°C\n") :=
  ⟨rfl, by decide⟩

/-- C10: saving appends one entry at the end of the saving user's history
and leaves every other user's history untouched. -/
theorem c10_save_frame :
    ∀ (store : Store) (uid : Int) (city : String) (w : JObj),
      get_user_history (save_weather_request store uid city w) uid
        = get_user_history store uid ++ [⟨city, w⟩]
      ∧ ∀ (v : Int), v ≠ uid →
          get_user_history (save_weather_request store uid city w) v
            = get_user_history store v := by
  intro store uid city w
  exact ⟨save_self store uid city w, fun v hv => save_other store uid city w v hv⟩

theorem c10_save_frame_witness :
    get_user_history (save_weather_request [(.intKey 2, [⟨"B", []⟩])] 1 ("P") []) 2
      = get_user_history [(.intKey 2, [⟨"B", []⟩])] 2 :=
  (c10_save_frame [(.intKey 2, [⟨"B", []⟩])] 1 ("P") []).2 2 (by decide)
